import Mathlib

/-!
Verification of the retrieval-layer core of the repository:
the vector-store adapter (plugins/vectorstore.py, WeaviateAdapter) and
the retrieval pipeline (plugins/weaviate.py, QueryLibraryPlugin).

Shallow embedding conventions:
* Python dict values that flow through the core are modelled by PyVal
  (strings, numbers, float vectors, None); dicts are association lists
  with first-match lookup (Python dicts have unique keys).
* Exceptions are modelled by Except String; str(e) is the carried String.
* External collaborators (the embeddings client and the Weaviate SDK's
  read path) are behaviour functions supplied as parameters; the Weaviate
  SDK's collection-lifecycle state is modelled explicitly by ClientState.
-/

/-- Model of a Python value as it flows through this code base:
text fields, numeric distances, float vectors, and None. -/
inductive PyVal where
  | s (v : String)
  | num (v : Rat)
  | vec (v : List Rat)
  | none
deriving DecidableEq, Repr

/-- A Python dict with PyVal values, as an association list (first match wins;
Python dicts have unique keys). -/
abbrev PyDict : Type := List (String × PyVal)

/-- Model of Python dict.get(key, default). -/
def dictGet : PyDict → String → PyVal → PyVal
  | [], _, d => d
  | (k', v) :: rest, k, d => if k' = k then v else dictGet rest k d

/-- The keys of a dict. -/
def dictKeys (d : PyDict) : List String := d.map Prod.fst

/-- Model of Python list indexing xs[i]: raises IndexError when out of range. -/
def listIndex {α : Type} : List α → Nat → Except String α
  | [], _ => .error "list index out of range"
  | x :: _, 0 => .ok x
  | _ :: xs, n + 1 => listIndex xs n

/-! ## Weaviate SDK model (external collaborator state) -/

/-- Model of weaviate.classes.config.DataType; only TEXT is used by the source. -/
inductive DataType where
  | TEXT
  | INT
  | NUMBER
  | BOOL
deriving DecidableEq, Repr

/-- Model of weaviate.classes.config.Property: a named, typed field. -/
structure Property where
  name : String
  data_type : DataType
deriving DecidableEq, Repr

/-- One record stored in a collection, as prepared by WeaviateAdapter.insert_many:
a properties dict plus a caller-supplied vector value. -/
structure StoredEntry where
  properties : PyDict
  vector : PyVal
deriving DecidableEq, Repr

/-- One named collection held by the Weaviate client: its name, its field schema,
whether it was configured with Configure.Vectorizer.none(), and its entries. -/
structure WvCollection where
  name : String
  properties : List Property
  vectorizerNone : Bool
  entries : List StoredEntry
deriving DecidableEq, Repr

/-- State of the long-lived Weaviate client owned by the adapter.
closeFail models whether the underlying client.close() call raises
(with the given message); hasClose models hasattr(client, "close"). -/
structure ClientState where
  collections : List WvCollection
  closed : Bool
  hasClose : Bool
  closeFail : Option String
deriving DecidableEq, Repr

/-- Model of client.collections.exists(name). -/
def clientExists (s : ClientState) (collection_name : String) : Bool :=
  s.collections.any (fun c => c.name = collection_name)

/-- Model of client.collections.create(name, vectorizer_config, properties):
registers a fresh, empty collection. -/
def clientCreate (s : ClientState) (collection_name : String)
    (properties : List Property) (vectorizerNone : Bool) : ClientState :=
  { s with collections :=
      s.collections ++ [⟨collection_name, properties, vectorizerNone, []⟩] }

/-- Model of client.collections.delete(name). -/
def clientDelete (s : ClientState) (collection_name : String) : ClientState :=
  { s with collections := s.collections.filter (fun c => ¬ c.name = collection_name) }

/-- Model of collection.data.insert_many(prepared): appends the prepared
records to the named collection's entries. -/
def clientInsertMany (s : ClientState) (collection_name : String)
    (entries : List StoredEntry) : ClientState :=
  { s with collections := s.collections.map (fun c =>
      if c.name = collection_name then { c with entries := c.entries ++ entries } else c) }

/-- Model of client.close(): raises when the behaviour says so, otherwise
marks the connection closed (idempotently, as the Weaviate client does). -/
def clientClose (s : ClientState) : Except String ClientState :=
  match s.closeFail with
  | some m => .error m
  | Option.none => .ok { s with closed := true }

/-- The first collection with the given name, if any
(model of client.collections.get(name) resolving its target). -/
def findCollection (s : ClientState) (collection_name : String) : Option WvCollection :=
  s.collections.find? (fun c => c.name = collection_name)

/-- The entries currently stored under the given collection name. -/
def entriesOf (s : ClientState) (collection_name : String) : List StoredEntry :=
  match findCollection s collection_name with
  | some c => c.entries
  | Option.none => []

/-! ## WeaviateAdapter (plugins/vectorstore.py) -/

namespace WeaviateAdapter

/-- WeaviateAdapter.exists: delegates to client.collections.exists. -/
def wvExists (s : ClientState) (collection_name : String) : Bool :=
  clientExists s collection_name

/-- The default schema created when properties_schema is omitted:
three TEXT properties title, description, query. -/
def defaultProperties : List Property :=
  [⟨"title", DataType.TEXT⟩, ⟨"description", DataType.TEXT⟩, ⟨"query", DataType.TEXT⟩]

/-- WeaviateAdapter.create_collection: creates the collection only if absent,
with the caller's schema when given and the default schema otherwise, and
with Configure.Vectorizer.none(). -/
def create_collection (s : ClientState) (collection_name : String)
    (properties_schema : Option (List Property)) : ClientState :=
  if ¬ wvExists s collection_name then
    clientCreate s collection_name
      (match properties_schema with
       | Option.none => defaultProperties
       | some props => props)
      true
  else s

/-- WeaviateAdapter.delete_collection: deletes only if present. -/
def delete_collection (s : ClientState) (collection_name : String) : ClientState :=
  if wvExists s collection_name then clientDelete s collection_name else s

/-- The per-item preparation performed by WeaviateAdapter.insert_many:
it.get("title", ""), it.get("description", ""), it.get("query", "")
into the properties dict, and it.get("vector", None) as the vector. -/
def prepareItem (it : PyDict) : StoredEntry :=
  { properties :=
      [("title", dictGet it "title" (PyVal.s "")),
       ("description", dictGet it "description" (PyVal.s "")),
       ("query", dictGet it "query" (PyVal.s ""))],
    vector := dictGet it "vector" PyVal.none }

/-- WeaviateAdapter.insert_many: auto-creates the collection with defaults when
absent, then inserts the prepared batch. -/
def insert_many (s : ClientState) (collection_name : String)
    (items : List PyDict) : ClientState :=
  let s1 := if ¬ wvExists s collection_name
            then create_collection s collection_name Option.none
            else s
  clientInsertMany s1 collection_name (items.map prepareItem)

/-- WeaviateAdapter.close: if the client has a close attribute, call it and
swallow any exception it raises. -/
def close (s : ClientState) : ClientState :=
  if s.hasClose then
    match clientClose s with
    | .ok s' => s'
    | .error _ => s
  else s

/-- One raw object of a Weaviate near_vector response: its properties dict and
its optional metadata carrying an optional distance. The outer Option models
the hasattr(obj, "metadata")/not-None/hasattr(metadata, "distance") guards;
the inner Option models a distance field that is itself None. -/
structure WvObject where
  properties : PyDict
  metadata : Option (Option Rat)
deriving DecidableEq, Repr

/-- The distance WeaviateAdapter.query_nearest extracts from a raw object:
obj.metadata.distance when every guard passes, None otherwise. -/
def objDistance (o : WvObject) : Option Rat :=
  match o.metadata with
  | some md => md
  | Option.none => Option.none

/-- The per-object normalization performed by WeaviateAdapter.query_nearest:
props.get with empty-string defaults plus the extracted distance. -/
def rawToSearch (o : WvObject) : PyDict :=
  [("title", dictGet o.properties "title" (PyVal.s "")),
   ("description", dictGet o.properties "description" (PyVal.s "")),
   ("query", dictGet o.properties "query" (PyVal.s "")),
   ("distance",
     match objDistance o with
     | some d => PyVal.num d
     | Option.none => PyVal.none)]

/-- Behaviour of the backing store's near_vector read path
(collection name, query vector, limit ↦ raw response or exception). -/
def NearVectorBehavior : Type :=
  String → List Rat → Nat → Except String (List WvObject)

/-- WeaviateAdapter.query_nearest: delegate to the client's near_vector with
the given limit and distance metadata requested, then normalize each raw
object into a SearchResult dict. -/
def query_nearest (nv : NearVectorBehavior) (collection_name : String)
    (vector : List Rat) (limit : Nat) : Except String (List PyDict) :=
  match nv collection_name vector limit with
  | .error e => .error e
  | .ok objs => .ok (objs.map rawToSearch)

end WeaviateAdapter

/-! ## QueryLibraryPlugin (plugins/weaviate.py) -/

/-- Modelled from the spec: DashboardQuery comes from plugins/model.py, which is
not among the sources; the spec describes it as a record carrying an identifier,
title, description and query text. Fields hold whatever PyVal obj.get returned. -/
structure DashboardQuery where
  id : PyVal
  title : PyVal
  description : PyVal
  query : PyVal
deriving DecidableEq, Repr

/-- The pipeline's returned dict: either the success shape (no error key,
a queries list) or the failure shape (an error string and queries). -/
structure QuerySuggestionResponse where
  error : Option String
  queries : List DashboardQuery
deriving DecidableEq, Repr

/-- The collaborators and configuration visible to QueryLibraryPlugin:
the embeddings client, the vector store it was constructed with, and the
configured collection name. Modelled from the spec: COLLECTION_NAME comes from
plugins/config.py, which is not among the sources; the spec only calls it
"the configured collection name", so its value is a field here. -/
structure PluginEnv where
  get_embedding : String → Except String (List (List Rat))
  vs_exists : String → Except String Bool
  vs_query_nearest : String → List Rat → Nat → Except String (List PyDict)
  COLLECTION_NAME : String

/-- The error string built for a missing collection. -/
def missingCollectionMsg (collection_name : String) : String :=
  "Collection '" ++ collection_name ++
    "' does not exist, please make sure to populate it with query examples."

/-- The Format step: DashboardQuery(id=obj.get("id",""), title=obj.get("title",""),
description=obj.get("description",""), query=obj.get("query","")). -/
def mkDashboardQuery (obj : PyDict) : DashboardQuery :=
  { id := dictGet obj "id" (PyVal.s ""),
    title := dictGet obj "title" (PyVal.s ""),
    description := dictGet obj "description" (PyVal.s ""),
    query := dictGet obj "query" (PyVal.s "") }

/-- The body of the try block of QueryLibraryPlugin.get_query_suggestions:
embed the purpose, check the collection exists (reporting a structured error
when absent), search with the first embedding vector and limit 3, and format
the results. Each collaborator failure propagates as an Except error. -/
def get_query_suggestions_raw (env : PluginEnv) (query_purpose : String) :
    Except String QuerySuggestionResponse :=
  match env.get_embedding query_purpose with
  | .error e => .error e
  | .ok embedded_question =>
    match env.vs_exists env.COLLECTION_NAME with
    | .error e => .error e
    | .ok ex =>
      if ¬ ex then
        .ok { error := some (missingCollectionMsg env.COLLECTION_NAME), queries := [] }
      else
        match listIndex embedded_question 0 with
        | .error e => .error e
        | .ok v0 =>
          match env.vs_query_nearest env.COLLECTION_NAME v0 3 with
          | .error e => .error e
          | .ok result =>
            .ok { error := Option.none, queries := result.map mkDashboardQuery }

/-- QueryLibraryPlugin.get_query_suggestions: run the try block and convert any
escaping exception into the structured failure shape. The keywords argument
only feeds the initial log line in the source and so does not reach the result. -/
def get_query_suggestions (env : PluginEnv) (query_purpose : String)
    (keywords : List String) : QuerySuggestionResponse :=
  match get_query_suggestions_raw env query_purpose with
  | .ok resp => resp
  | .error e => { error := some e, queries := [] }

/-! ## Concrete fixtures used by the witness theorems -/

/-- A raw store object with the three text properties and a present distance. -/
def obj0 : WeaviateAdapter.WvObject :=
  { properties := [("title", PyVal.s "t"), ("description", PyVal.s "d"),
                   ("query", PyVal.s "q")],
    metadata := some (some 0) }

/-- A near_vector behaviour that always delivers the single object obj0. -/
def nv0 : WeaviateAdapter.NearVectorBehavior :=
  fun _ _ _ => .ok [obj0]

/-- A client state holding one populated collection named "queries". -/
def s0 : ClientState :=
  { collections := [⟨"queries", WeaviateAdapter.defaultProperties, true, []⟩],
    closed := false, hasClose := true, closeFail := Option.none }

/-- A client state with no collections. -/
def sEmpty : ClientState :=
  { collections := [], closed := false, hasClose := true,
    closeFail := Option.none }

/-- A client state whose underlying close call raises. -/
def sFail : ClientState :=
  { collections := [], closed := false, hasClose := true,
    closeFail := some "socket already released" }

/-- An item carrying only a title key. -/
def item0 : PyDict := [("title", PyVal.s "t")]

/-- An item with no keys at all. -/
def itemEmpty : PyDict := []

/-- A pipeline environment whose store lacks the configured collection. -/
def envC2 : PluginEnv :=
  { get_embedding := fun _ => .ok [[1]],
    vs_exists := fun _ => .ok false,
    vs_query_nearest := fun _ _ _ => .ok [],
    COLLECTION_NAME := "queries" }

/-- A pipeline environment for which every step succeeds. -/
def envOK : PluginEnv :=
  { get_embedding := fun _ => .ok [[1]],
    vs_exists := fun _ => .ok true,
    vs_query_nearest := fun _ _ _ => .ok [],
    COLLECTION_NAME := "queries" }

/-! ## Helper lemmas about the pipeline -/

theorem dictGet_of_not_mem (d : PyDict) (k : String) (dflt : PyVal)
    (h : k ∉ dictKeys d) : dictGet d k dflt = dflt := by
  induction d with
  | nil => rfl
  | cons kv rest ih =>
    unfold dictGet
    unfold dictKeys at h
    simp only [List.map_cons, List.mem_cons] at h
    push_neg at h
    rw [if_neg (fun hk => h.1 hk.symm)]
    exact ih h.2

theorem pipeline_success_raw (env : PluginEnv) (query_purpose : String)
    (keywords : List String) (qs : List DashboardQuery)
    (h : get_query_suggestions env query_purpose keywords =
      ⟨Option.none, qs⟩) :
    get_query_suggestions_raw env query_purpose = .ok ⟨Option.none, qs⟩ := by
  unfold get_query_suggestions at h
  cases hr : get_query_suggestions_raw env query_purpose with
  | ok r => simp only [hr] at h; rw [h]
  | error e => simp [hr] at h

theorem success_shape (env : PluginEnv) (query_purpose : String)
    (qs : List DashboardQuery)
    (h : get_query_suggestions_raw env query_purpose = .ok ⟨Option.none, qs⟩) :
    ∃ vecs v0 objs,
      env.get_embedding query_purpose = .ok vecs ∧
      listIndex vecs 0 = .ok v0 ∧
      env.vs_exists env.COLLECTION_NAME = .ok true ∧
      env.vs_query_nearest env.COLLECTION_NAME v0 3 = .ok objs ∧
      qs = objs.map mkDashboardQuery := by
  unfold get_query_suggestions_raw at h
  cases hemb : env.get_embedding query_purpose with
  | error e => simp only [hemb] at h; exact Except.noConfusion h
  | ok vecs =>
    simp only [hemb] at h
    cases hex : env.vs_exists env.COLLECTION_NAME with
    | error e => simp only [hex] at h; exact Except.noConfusion h
    | ok ex =>
      simp only [hex] at h
      cases ex with
      | false => simp at h
      | true =>
        simp only [not_true, if_false, ite_false, Bool.not_true, Bool.false_eq_true,
          not_true_eq_false] at h
        cases hv : listIndex vecs 0 with
        | error e => simp only [hv] at h; exact Except.noConfusion h
        | ok v0 =>
          simp only [hv] at h
          cases hq : env.vs_query_nearest env.COLLECTION_NAME v0 3 with
          | error e => simp only [hq] at h; exact Except.noConfusion h
          | ok objs =>
            simp only [hq, Except.ok.injEq, QuerySuggestionResponse.mk.injEq,
              true_and] at h
            exact ⟨vecs, v0, objs, rfl, hv, rfl, hq, h.symm⟩

theorem raw_shape (env : PluginEnv) (query_purpose : String) :
    (∃ qs, get_query_suggestions_raw env query_purpose = .ok ⟨Option.none, qs⟩) ∨
    get_query_suggestions_raw env query_purpose =
      .ok ⟨some (missingCollectionMsg env.COLLECTION_NAME), []⟩ ∨
    (∃ e, get_query_suggestions_raw env query_purpose = .error e) := by
  unfold get_query_suggestions_raw
  cases hemb : env.get_embedding query_purpose with
  | error e => exact .inr (.inr ⟨e, by simp [hemb]⟩)
  | ok vecs =>
    cases hex : env.vs_exists env.COLLECTION_NAME with
    | error e => exact .inr (.inr ⟨e, by simp [hemb, hex]⟩)
    | ok ex =>
      cases ex with
      | false => right; left; simp [hemb, hex]
      | true =>
        cases hv : listIndex vecs 0 with
        | error e => right; right; exact ⟨e, by simp [hemb, hex, hv]⟩
        | ok v0 =>
          cases hq : env.vs_query_nearest env.COLLECTION_NAME v0 3 with
          | error e => right; right; exact ⟨e, by simp [hemb, hex, hv, hq]⟩
          | ok objs =>
            left; exact ⟨objs.map mkDashboardQuery, by simp [hemb, hex, hv, hq]⟩

theorem missingCollectionMsg_ne_empty (collection_name : String) :
    missingCollectionMsg collection_name ≠ "" := by
  unfold missingCollectionMsg
  intro h
  have h2 := congrArg String.length h
  rw [String.length_append, String.length_append] at h2
  have h3 : ("Collection '" : String).length = 12 := rfl
  have h4 : ("" : String).length = 0 := rfl
  omega

/-! ## Pipeline claims -/

/-- C1: for every purpose text, keywords sequence, embedding behaviour and
store behaviour, get_query_suggestions never lets an exception escape: its
result is always either the success shape (no error field) or the structured
failure shape with the error message and an empty queries list. -/
theorem get_query_suggestions_never_raises (env : PluginEnv)
    (query_purpose : String) (keywords : List String) :
    (∃ qs, get_query_suggestions env query_purpose keywords = ⟨Option.none, qs⟩) ∨
    (∃ m, get_query_suggestions env query_purpose keywords = ⟨some m, []⟩) := by
  rcases raw_shape env query_purpose with ⟨qs, hr⟩ | hr | ⟨e, hr⟩
  · exact .inl ⟨qs, by simp [get_query_suggestions, hr]⟩
  · exact .inr ⟨missingCollectionMsg env.COLLECTION_NAME,
      by simp [get_query_suggestions, hr]⟩
  · exact .inr ⟨e, by simp [get_query_suggestions, hr]⟩

/-- C2: when the embedding step succeeds and exists on the configured
collection name returns false, get_query_suggestions returns the structured
failure with a non-empty error string and empty queries, and the result does
not depend on the store's query_nearest behaviour at all (so query_nearest is
never consulted on this path). -/
theorem get_query_suggestions_missing_collection (env : PluginEnv)
    (query_purpose : String) (keywords : List String) (vecs : List (List Rat))
    (h1 : env.get_embedding query_purpose = .ok vecs)
    (h2 : env.vs_exists env.COLLECTION_NAME = .ok false) :
    (∀ qn, get_query_suggestions { env with vs_query_nearest := qn }
        query_purpose keywords =
      ⟨some (missingCollectionMsg env.COLLECTION_NAME), []⟩) ∧
    missingCollectionMsg env.COLLECTION_NAME ≠ "" := by
  refine ⟨fun qn => ?_, missingCollectionMsg_ne_empty env.COLLECTION_NAME⟩
  unfold get_query_suggestions get_query_suggestions_raw
  simp [h1, h2]

/-- C3: the returned value of get_query_suggestions is the same for every
choice of the keywords argument; keywords only feed the initial log line in
the source and never influence the result. -/
theorem get_query_suggestions_keywords_irrelevant (env : PluginEnv)
    (query_purpose : String) (keywords keywords' : List String) :
    get_query_suggestions env query_purpose keywords =
      get_query_suggestions env query_purpose keywords' := rfl

/-- C8: on every successful invocation the search step consulted query_nearest
at exactly the configured collection name, the first vector of the embedding
response, and a limit of 3: those collaborator calls all happened with these
results, and replacing the store's query_nearest by any behaviour that agrees
at that single input leaves the pipeline's result unchanged. -/
theorem search_uses_first_vector_limit_three (env : PluginEnv)
    (query_purpose : String) (keywords : List String) (qs : List DashboardQuery)
    (h : get_query_suggestions env query_purpose keywords = ⟨Option.none, qs⟩) :
    ∃ vecs v0 objs,
      env.get_embedding query_purpose = .ok vecs ∧
      listIndex vecs 0 = .ok v0 ∧
      env.vs_exists env.COLLECTION_NAME = .ok true ∧
      env.vs_query_nearest env.COLLECTION_NAME v0 3 = .ok objs ∧
      qs = objs.map mkDashboardQuery ∧
      ∀ qn, qn env.COLLECTION_NAME v0 3 =
          env.vs_query_nearest env.COLLECTION_NAME v0 3 →
        get_query_suggestions { env with vs_query_nearest := qn }
          query_purpose keywords = ⟨Option.none, qs⟩ := by
  have hraw := pipeline_success_raw env query_purpose keywords qs h
  obtain ⟨vecs, v0, objs, hemb, hv, hex, hq, hqs⟩ :=
    success_shape env query_purpose qs hraw
  refine ⟨vecs, v0, objs, hemb, hv, hex, hq, hqs, fun qn hagree => ?_⟩
  unfold get_query_suggestions get_query_suggestions_raw
  simp [hemb, hex, hv, hagree, hq, hqs]

/-- C9: when the pipeline's vector store is the WeaviateAdapter, the id field
of every DashboardQuery in a successful result is the empty string, because
the adapter's result dicts carry only title, description, query and distance
keys and the pipeline defaults a missing id to "". -/
theorem adapter_pipeline_ids_empty (nv : WeaviateAdapter.NearVectorBehavior)
    (ge : String → Except String (List (List Rat)))
    (ex : String → Except String Bool) (cn : String)
    (query_purpose : String) (keywords : List String) (qs : List DashboardQuery)
    (h : get_query_suggestions ⟨ge, ex, WeaviateAdapter.query_nearest nv, cn⟩
        query_purpose keywords = ⟨Option.none, qs⟩) :
    ∀ q ∈ qs, q.id = PyVal.s "" := by
  have hraw := pipeline_success_raw _ _ _ _ h
  obtain ⟨vecs, v0, objs, hemb, hv, hex, hq, hqs⟩ :=
    success_shape _ _ _ hraw
  subst hqs
  intro q hqmem
  obtain ⟨d, hd, hq'⟩ := List.mem_map.1 hqmem
  have hq2 : WeaviateAdapter.query_nearest nv cn v0 3 = .ok objs := hq
  unfold WeaviateAdapter.query_nearest at hq2
  cases hnv : nv cn v0 3 with
  | error e => simp only [hnv] at hq2; exact Except.noConfusion hq2
  | ok raws =>
    simp only [hnv, Except.ok.injEq] at hq2
    subst hq2
    obtain ⟨r, hr, hdr⟩ := List.mem_map.1 hd
    rw [← hq', ← hdr]
    rfl

/-! ## Helper lemmas about the adapter state model -/

theorem absent_names (s : ClientState) (collection_name : String)
    (h : clientExists s collection_name = false) :
    ∀ c ∈ s.collections, ¬ (c.name = collection_name) := by
  unfold clientExists at h
  simpa [List.any_eq_true] using h

theorem findCollection_none_of_absent (s : ClientState) (collection_name : String)
    (h : clientExists s collection_name = false) :
    findCollection s collection_name = Option.none := by
  unfold findCollection
  rw [List.find?_eq_none]
  intro c hc
  simpa using absent_names s collection_name h c hc

theorem entriesOf_absent (s : ClientState) (collection_name : String)
    (h : clientExists s collection_name = false) :
    entriesOf s collection_name = [] := by
  unfold entriesOf
  rw [findCollection_none_of_absent s collection_name h]

theorem findCollection_clientCreate_absent (s : ClientState)
    (collection_name : String) (props : List Property) (b : Bool)
    (h : clientExists s collection_name = false) :
    findCollection (clientCreate s collection_name props b) collection_name =
      some ⟨collection_name, props, b, []⟩ := by
  unfold findCollection clientCreate
  rw [List.find?_append]
  have h1 : s.collections.find?
      (fun c => decide (c.name = collection_name)) = Option.none := by
    rw [List.find?_eq_none]
    intro c hc
    simpa using absent_names s collection_name h c hc
  rw [h1]
  simp [List.find?]

theorem find?_map_insert (l : List WvCollection) (collection_name : String)
    (e : List StoredEntry) :
    (l.map (fun c => if c.name = collection_name
        then { c with entries := c.entries ++ e } else c)).find?
        (fun c => decide (c.name = collection_name)) =
      (l.find? (fun c => decide (c.name = collection_name))).map
        (fun c => { c with entries := c.entries ++ e }) := by
  induction l with
  | nil => rfl
  | cons c l ih =>
    by_cases hc : c.name = collection_name
    · simp [List.find?, hc]
    · simp [List.find?, hc, ih]

theorem findCollection_clientInsertMany (s : ClientState)
    (collection_name : String) (e : List StoredEntry) :
    findCollection (clientInsertMany s collection_name e) collection_name =
      (findCollection s collection_name).map
        (fun c => { c with entries := c.entries ++ e }) := by
  unfold findCollection clientInsertMany
  exact find?_map_insert s.collections collection_name e

theorem findCollection_some_of_exists (s : ClientState) (collection_name : String)
    (h : clientExists s collection_name = true) :
    ∃ c, findCollection s collection_name = some c := by
  cases hf : findCollection s collection_name with
  | some c => exact ⟨c, rfl⟩
  | none =>
    unfold findCollection at hf
    rw [List.find?_eq_none] at hf
    unfold clientExists at h
    simp only [List.any_eq_true] at h
    obtain ⟨c, hc, hn⟩ := h
    have hne := hf c hc
    simp at hne hn
    exact absurd hn hne

theorem entriesOf_clientInsertMany (s : ClientState) (collection_name : String)
    (e : List StoredEntry) (h : clientExists s collection_name = true) :
    entriesOf (clientInsertMany s collection_name e) collection_name =
      entriesOf s collection_name ++ e := by
  obtain ⟨c, hc⟩ := findCollection_some_of_exists s collection_name h
  unfold entriesOf
  rw [findCollection_clientInsertMany, hc]
  rfl

theorem clientInsertMany_preserves_schema (s : ClientState)
    (collection_name : String) (e : List StoredEntry) :
    (clientInsertMany s collection_name e).collections.map
        (fun c => (c.name, c.properties, c.vectorizerNone)) =
      s.collections.map (fun c => (c.name, c.properties, c.vectorizerNone)) := by
  unfold clientInsertMany
  simp only [List.map_map]
  apply List.map_congr_left
  intro c _
  by_cases hc : c.name = collection_name
  · simp [hc, Function.comp]
  · simp [hc, Function.comp]

/-! ## Adapter claims -/

/-- C5: the lifecycle operations are idempotent: create_collection on an
existing collection is a no-op, delete_collection on an absent collection is
a no-op, a second close is a no-op, and close swallows any failure of the
underlying release call, leaving the state untouched instead of raising. -/
theorem lifecycle_idempotent (s : ClientState) (collection_name : String)
    (properties_schema : Option (List Property)) :
    (WeaviateAdapter.wvExists s collection_name = true →
      WeaviateAdapter.create_collection s collection_name properties_schema = s) ∧
    (WeaviateAdapter.wvExists s collection_name = false →
      WeaviateAdapter.delete_collection s collection_name = s) ∧
    WeaviateAdapter.close (WeaviateAdapter.close s) = WeaviateAdapter.close s ∧
    (∀ m, s.closeFail = some m → WeaviateAdapter.close s = s) := by
  refine ⟨?_, ?_, ?_, ?_⟩
  · intro h
    unfold WeaviateAdapter.create_collection
    rw [h]
    simp
  · intro h
    unfold WeaviateAdapter.delete_collection
    rw [h]
    simp
  · unfold WeaviateAdapter.close clientClose
    cases hcf : s.closeFail with
    | some m => simp [hcf]
    | none =>
      cases hc : s.hasClose with
      | false => simp [hc]
      | true => simp [hc, hcf]
  · intro m hm
    unfold WeaviateAdapter.close clientClose
    simp [hm]

/-- C7: create_collection with the schema argument omitted, on an absent
collection, creates it with exactly the three text fields title, description
and query and with no built-in vectorizer. -/
theorem create_collection_default_schema (s : ClientState)
    (collection_name : String)
    (h : WeaviateAdapter.wvExists s collection_name = false) :
    findCollection
        (WeaviateAdapter.create_collection s collection_name Option.none)
        collection_name =
      some ⟨collection_name,
            [⟨"title", DataType.TEXT⟩, ⟨"description", DataType.TEXT⟩,
             ⟨"query", DataType.TEXT⟩], true, []⟩ := by
  unfold WeaviateAdapter.create_collection
  rw [h]
  simp only [Bool.false_eq_true, not_false_iff, if_true, ite_true]
  exact findCollection_clientCreate_absent s collection_name _ true h

/-- C6: when the target collection is absent, insert_many first creates it
with the default schema (three text fields, no built-in vectorizer) and then
inserts exactly the prepared batch; when it is already present, no creation
occurs: every collection's name, schema and vectorizer setting are unchanged. -/
theorem insert_many_autocreates (s : ClientState) (collection_name : String)
    (items : List PyDict) :
    (WeaviateAdapter.wvExists s collection_name = false →
      findCollection (WeaviateAdapter.insert_many s collection_name items)
          collection_name =
        some ⟨collection_name, WeaviateAdapter.defaultProperties, true,
              items.map WeaviateAdapter.prepareItem⟩) ∧
    (WeaviateAdapter.wvExists s collection_name = true →
      (WeaviateAdapter.insert_many s collection_name items).collections.map
          (fun c => (c.name, c.properties, c.vectorizerNone)) =
        s.collections.map (fun c => (c.name, c.properties, c.vectorizerNone))) := by
  constructor
  · intro h
    unfold WeaviateAdapter.insert_many
    rw [h]
    simp only [Bool.false_eq_true, not_false_iff, if_true, ite_true]
    rw [findCollection_clientInsertMany]
    unfold WeaviateAdapter.create_collection
    rw [h]
    simp only [Bool.false_eq_true, not_false_iff, if_true, ite_true]
    rw [findCollection_clientCreate_absent s collection_name _ true h]
    simp
  · intro h
    unfold WeaviateAdapter.insert_many
    rw [h]
    simp only [not_true, not_true_eq_false, if_false, ite_false]
    exact clientInsertMany_preserves_schema s collection_name
      (items.map WeaviateAdapter.prepareItem)

/-- C10: insert_many is total over item shape: the entries appended to the
collection are exactly the prepared batch, and preparation substitutes the
empty string for a missing title, description or query key and a null vector
for a missing vector key instead of failing on the lookup. -/
theorem insert_many_total_shape (s : ClientState) (collection_name : String)
    (items : List PyDict) :
    entriesOf (WeaviateAdapter.insert_many s collection_name items)
        collection_name =
      entriesOf s collection_name ++ items.map WeaviateAdapter.prepareItem ∧
    (∀ it : PyDict, "title" ∉ dictKeys it →
      dictGet (WeaviateAdapter.prepareItem it).properties "title" PyVal.none =
        PyVal.s "") ∧
    (∀ it : PyDict, "description" ∉ dictKeys it →
      dictGet (WeaviateAdapter.prepareItem it).properties "description"
        PyVal.none = PyVal.s "") ∧
    (∀ it : PyDict, "query" ∉ dictKeys it →
      dictGet (WeaviateAdapter.prepareItem it).properties "query" PyVal.none =
        PyVal.s "") ∧
    (∀ it : PyDict, "vector" ∉ dictKeys it →
      (WeaviateAdapter.prepareItem it).vector = PyVal.none) := by
  refine ⟨?_, ?_, ?_, ?_, ?_⟩
  · cases hex : WeaviateAdapter.wvExists s collection_name with
    | true =>
      unfold WeaviateAdapter.insert_many
      rw [hex]
      simp only [not_true, not_true_eq_false, if_false, ite_false]
      exact entriesOf_clientInsertMany s collection_name
        (items.map WeaviateAdapter.prepareItem) hex
    | false =>
      unfold WeaviateAdapter.insert_many
      rw [hex]
      simp only [Bool.false_eq_true, not_false_iff, if_true, ite_true]
      rw [entriesOf_absent s collection_name hex]
      unfold entriesOf
      rw [findCollection_clientInsertMany]
      unfold WeaviateAdapter.create_collection
      rw [hex]
      simp only [Bool.false_eq_true, not_false_iff, if_true, ite_true]
      rw [findCollection_clientCreate_absent s collection_name _ true hex]
      simp
  · intro it h
    unfold WeaviateAdapter.prepareItem
    simp only [dictGet, if_pos rfl]
    exact dictGet_of_not_mem it "title" (PyVal.s "") h
  · intro it h
    unfold WeaviateAdapter.prepareItem
    simp only [dictGet]
    rw [if_pos trivial]
    exact dictGet_of_not_mem it "description" (PyVal.s "") h
  · intro it h
    unfold WeaviateAdapter.prepareItem
    simp only [dictGet]
    rw [if_pos trivial]
    exact dictGet_of_not_mem it "query" (PyVal.s "") h
  · intro it h
    unfold WeaviateAdapter.prepareItem
    exact dictGet_of_not_mem it "vector" PyVal.none h

/-- C4: query_nearest returns, without error, the backing store's delivered
objects normalized in the delivered order; the result has at most limit
records whenever the store honors the limit, is empty (not an error) when the
store delivers an empty response as it does for an empty collection, and each
record carries the store's reported distance when supplied and null otherwise. -/
theorem query_nearest_spec (nv : WeaviateAdapter.NearVectorBehavior)
    (collection_name : String) (vector : List Rat) (limit : Nat)
    (objs : List WeaviateAdapter.WvObject)
    (hnv : nv collection_name vector limit = .ok objs)
    (hlen : objs.length ≤ limit) :
    WeaviateAdapter.query_nearest nv collection_name vector limit =
      .ok (objs.map WeaviateAdapter.rawToSearch) ∧
    (objs.map WeaviateAdapter.rawToSearch).length ≤ limit ∧
    (objs = [] →
      WeaviateAdapter.query_nearest nv collection_name vector limit = .ok []) ∧
    (∀ i : Nat, (objs.map WeaviateAdapter.rawToSearch)[i]? =
      (objs[i]?).map WeaviateAdapter.rawToSearch) ∧
    (∀ o ∈ objs, ∀ d, WeaviateAdapter.objDistance o = some d →
      dictGet (WeaviateAdapter.rawToSearch o) "distance" PyVal.none =
        PyVal.num d) ∧
    (∀ o ∈ objs, WeaviateAdapter.objDistance o = Option.none →
      dictGet (WeaviateAdapter.rawToSearch o) "distance" PyVal.none =
        PyVal.none) := by
  refine ⟨?_, ?_, ?_, ?_, ?_, ?_⟩
  · unfold WeaviateAdapter.query_nearest
    simp [hnv]
  · simpa using hlen
  · intro h0
    subst h0
    unfold WeaviateAdapter.query_nearest
    simp [hnv]
  · intro i
    exact List.getElem?_map ..
  · intro o _ d hd
    unfold WeaviateAdapter.rawToSearch
    rw [hd]
    rfl
  · intro o _ hd
    unfold WeaviateAdapter.rawToSearch
    rw [hd]
    rfl

/-! ## Witnesses -/

/-- Witness for C2 at a concrete environment: the embedding succeeds, the
collection is absent, and the pipeline reports the structured error. -/
theorem get_query_suggestions_missing_collection_witness :
    get_query_suggestions envC2 "purpose" [] =
      ⟨some (missingCollectionMsg "queries"), []⟩ ∧
    missingCollectionMsg "queries" ≠ "" := by
  have h := get_query_suggestions_missing_collection envC2 "purpose" [] [[1]]
    rfl rfl
  exact ⟨h.1 envC2.vs_query_nearest, h.2⟩

/-- Witness for C8 at a concrete environment where every step succeeds. -/
theorem search_uses_first_vector_limit_three_witness :
    get_query_suggestions envOK "purpose" [] = ⟨Option.none, []⟩ ∧
    envOK.vs_exists envOK.COLLECTION_NAME = .ok true := by
  have h := search_uses_first_vector_limit_three envOK "purpose" [] [] rfl
  obtain ⟨vecs, v0, objs, h1, h2, h3, h4, h5, h6⟩ := h
  exact ⟨rfl, h3⟩

/-- Witness for C9: a successful pipeline run over the WeaviateAdapter yields
a DashboardQuery whose id is the empty string. -/
theorem adapter_pipeline_ids_empty_witness :
    (mkDashboardQuery (WeaviateAdapter.rawToSearch obj0)).id = PyVal.s "" :=
  adapter_pipeline_ids_empty nv0 (fun _ => .ok [[1]]) (fun _ => .ok true)
    "queries" "purpose" []
    [mkDashboardQuery (WeaviateAdapter.rawToSearch obj0)] rfl
    (mkDashboardQuery (WeaviateAdapter.rawToSearch obj0)) (by simp)

/-- Witness for C5 at concrete states: both guarded no-ops, the double close,
and the swallowed close failure. -/
theorem lifecycle_idempotent_witness :
    WeaviateAdapter.create_collection s0 "queries" Option.none = s0 ∧
    WeaviateAdapter.delete_collection s0 "absent" = s0 ∧
    WeaviateAdapter.close (WeaviateAdapter.close s0) =
      WeaviateAdapter.close s0 ∧
    WeaviateAdapter.close sFail = sFail :=
  ⟨(lifecycle_idempotent s0 "queries" Option.none).1 (by decide),
   (lifecycle_idempotent s0 "absent" Option.none).2.1 (by decide),
   (lifecycle_idempotent s0 "queries" Option.none).2.2.1,
   (lifecycle_idempotent sFail "queries" Option.none).2.2.2
     "socket already released" rfl⟩

/-- Witness for C6: inserting into an absent collection creates it with the
default schema; inserting into a present one changes no schema. -/
theorem insert_many_autocreates_witness :
    findCollection (WeaviateAdapter.insert_many sEmpty "queries" [item0])
        "queries" =
      some ⟨"queries", WeaviateAdapter.defaultProperties, true,
            [WeaviateAdapter.prepareItem item0]⟩ ∧
    (WeaviateAdapter.insert_many s0 "queries" [item0]).collections.map
        (fun c => (c.name, c.properties, c.vectorizerNone)) =
      s0.collections.map (fun c => (c.name, c.properties, c.vectorizerNone)) :=
  ⟨(insert_many_autocreates sEmpty "queries" [item0]).1 (by decide),
   (insert_many_autocreates s0 "queries" [item0]).2 (by decide)⟩

/-- Witness for C7 at a concrete empty state. -/
theorem create_collection_default_schema_witness :
    findCollection
        (WeaviateAdapter.create_collection sEmpty "queries" Option.none)
        "queries" =
      some ⟨"queries",
            [⟨"title", DataType.TEXT⟩, ⟨"description", DataType.TEXT⟩,
             ⟨"query", DataType.TEXT⟩], true, []⟩ :=
  create_collection_default_schema sEmpty "queries" (by decide)

/-- Witness for C10 at a keyless item: the insert goes through and every
field falls back to its default. -/
theorem insert_many_total_shape_witness :
    entriesOf (WeaviateAdapter.insert_many sEmpty "queries" [itemEmpty])
        "queries" =
      entriesOf sEmpty "queries" ++ [WeaviateAdapter.prepareItem itemEmpty] ∧
    dictGet (WeaviateAdapter.prepareItem itemEmpty).properties "title"
      PyVal.none = PyVal.s "" ∧
    (WeaviateAdapter.prepareItem itemEmpty).vector = PyVal.none := by
  have h := insert_many_total_shape sEmpty "queries" [itemEmpty]
  exact ⟨h.1, h.2.1 itemEmpty (by decide), h.2.2.2.2 itemEmpty (by decide)⟩

/-- Witness for C4 at a concrete behaviour delivering one object with a
reported distance. -/
theorem query_nearest_spec_witness :
    WeaviateAdapter.query_nearest nv0 "queries" [1] 3 =
      .ok [WeaviateAdapter.rawToSearch obj0] ∧
    dictGet (WeaviateAdapter.rawToSearch obj0) "distance" PyVal.none =
      PyVal.num 0 := by
  have h := query_nearest_spec nv0 "queries" [1] 3 [obj0] rfl (by decide)
  exact ⟨h.1, h.2.2.2.2.1 obj0 (by simp) 0 rfl⟩
